import Mathlib

/-!
Shallow embedding of the tabular aggregation-and-chart-binding pipeline of the
nutrimap repository (files agrivoltaic_dashboard.py and app.py), together with
theorems settling the specification claims about it.

The measurement table is modelled as a list of rows; each row carries the DATE
field (parsed to an optional calendar date), the TIME field (raw string), the
Month field (raw string, made categorical over the fixed month order), a raw
timestamp field, and an association list from sensor-column name to an
optional rational value (missing = NaN).
-/

/-- A cell value: a floating-point number or missing (NaN), modelled as an
optional rational. -/
abbrev Val := Option ℚ

/-- One row of the measurement table. -/
structure SRow where
  date : Option (Nat × Nat × Nat)
  time : String
  month : String
  tstamp : String
  cells : List (String × Val)
deriving DecidableEq, Repr

/-- The in-memory measurement table: the list of sensor-column names and the
rows. -/
structure Table where
  cols : List String
  rows : List SRow
deriving DecidableEq, Repr

/-- pandas DataFrame.empty: true when either axis has length zero. -/
def Table.isEmpty (t : Table) : Bool :=
  t.rows.isEmpty || t.cols.isEmpty

/-- Split a character list on a separator character. -/
def splitOnChar (sep : Char) : List Char → List (List Char)
  | [] => [[]]
  | c :: rest =>
    match splitOnChar sep rest with
    | [] => [[c]]
    | g :: gs => if c = sep then [] :: g :: gs else (c :: g) :: gs

/-- Parse a nonempty all-digit character list to a natural number. -/
def parseNatDigits (cs : List Char) : Option Nat :=
  if cs ≠ [] ∧ cs.all Char.isDigit then
    some (cs.foldl (fun n c => n * 10 + (c.toNat - 48)) 0)
  else none

/-- Hour extraction from the TIME field, modelling
pd.to_datetime(TIME, errors=coerce).dt.hour: a time-of-day string of the form
HH:MM or HH:MM:SS with in-range fields parses to its hour; anything else
coerces to missing (NaT). -/
def parseHour (s : String) : Option Nat :=
  match (splitOnChar ':' s.data).map parseNatDigits with
  | [some hh, some mm] => if hh < 24 && mm < 60 then some hh else none
  | [some hh, some mm, some ss] =>
      if hh < 24 && mm < 60 && ss < 60 then some hh else none
  | _ => none

/-- The derived hour of a row (the Hour column derived from TIME). -/
def hourOf (r : SRow) : Option Nat := parseHour r.time

/-- The fixed ordered month categories of load_data and
update_monthly_temperature: month_order = [May, June, July, August, October]. -/
def monthOrder : List String := ["May", "June", "July", "August", "October"]

/-- The categorical code of a month value under pd.Categorical with categories
monthOrder: its index when it is one of the five categories, missing (NaN)
otherwise. -/
def monthCode (m : String) : Option Nat :=
  if m ∈ monthOrder then some (monthOrder.indexOf m) else none

/-- Arithmetic mean of a list of present values; none when the list is empty
(pandas mean of an all-NaN group is NaN). -/
def meanOf (vs : List ℚ) : Option ℚ :=
  if vs = [] then none else some (vs.sum / (vs.length : ℚ))

/-- The value of column c in row r; a column the row does not carry is
missing. -/
def cellVal (r : SRow) (c : String) : Val :=
  (r.cells.lookup c).join

/-- Insert into an ascending list of naturals. -/
def insertAsc (x : Nat) : List Nat → List Nat
  | [] => [x]
  | y :: ys => if x ≤ y then x :: y :: ys else y :: insertAsc x ys

/-- Ascending insertion sort on naturals. -/
def sortAsc (l : List Nat) : List Nat := l.foldr insertAsc []

/-- The sorted distinct non-missing hour keys of a table, modelling the group
keys of the groupby on the derived Hour column: NaN keys are dropped, keys are
unique and ascending. -/
def hourKeys (t : Table) : List Nat :=
  sortAsc (t.rows.filterMap hourOf).dedup

/-- The present values of column c among the rows of t whose derived hour is
h. -/
def hourGroupVals (t : Table) (c : String) (h : Nat) : List ℚ :=
  (t.rows.filter (fun r => hourOf r == some h)).filterMap (fun r => cellVal r c)

/-- The present values of column c among the rows of t whose categorical month
is m; rows whose Month value is outside the five categories belong to no
group. -/
def monthGroupVals (t : Table) (c : String) (m : String) : List ℚ :=
  (t.rows.filter (fun r => r.month == m)).filterMap (fun r => cellVal r c)

/-- pandas label selection df[cols] or groupby[cols]: a KeyError is raised
when any requested label is absent from the column set. -/
def colsPresent (t : Table) (cs : List String) : Bool :=
  cs.all (t.cols.contains ·)

/-- merged_df.groupby(Hour)[cs].mean(): one output row per group key, one
entry per selected column holding the mean of its present values in that
group (missing when the group holds no present value for the column); raises
KeyError when a selected column is absent. -/
def hourlyMeans (t : Table) (cs : List String) :
    Except String (List (Nat × List (String × Val))) :=
  if colsPresent t cs then
    .ok ((hourKeys t).map (fun h =>
      (h, cs.map (fun c => (c, meanOf (hourGroupVals t c h))))))
  else .error "KeyError"

/-- merged_df.groupby(Month)[cs].mean() where Month is the ordered
categorical: group keys are all five categories in the fixed category order
(observed=False), each holding the mean of the present values of the column
in that month; raises KeyError when a selected column is absent. -/
def monthlyMeans (t : Table) (cs : List String) :
    Except String (List (String × List (String × Val))) :=
  if colsPresent t cs then
    .ok (monthOrder.map (fun m =>
      (m, cs.map (fun c => (c, meanOf (monthGroupVals t c m))))))
  else .error "KeyError"

/-- Positional rename of the value columns of a grouped frame
(frame.columns = [key, l1, l2, ...]). -/
def renameSeries {κ : Type} (labels : List String)
    (wide : List (κ × List (String × Val))) : List (κ × List (String × Val)) :=
  wide.map (fun g => (g.1, labels.zip (g.2.map Prod.snd)))

/-- pd.melt with the group key as id variable: one long row per
(series, key) pair, series-major as melt orders the output. -/
def meltLong {κ : Type} (labels : List String)
    (wide : List (κ × List (String × Val))) : List (String × κ × Val) :=
  labels.flatMap (fun l =>
    wide.filterMap (fun g => (g.2.lookup l).map (fun v => (l, g.1, v))))

/-- A chart description handed to the renderer: the no-data placeholder, the
error placeholder built in an except handler, or a chart carrying its series
data. -/
inductive Figure (α : Type) where
  | noData : Figure α
  | errorData : Figure α
  | chart : α → Figure α
deriving DecidableEq, Repr

/-- The three temperature columns selected by update_hourly_temperature. -/
def hourlyTempCols : List String :=
  ["AG-PV P3/T (oC)", "AO-TI P2/T (oC)", "PO-PV/T (oC)"]

/-- The series labels assigned by update_hourly_temperature. -/
def plotTypeLabels : List String := ["Agrivoltaic", "Control", "Ground-mounted"]

/-- Callback update_hourly_temperature: placeholder on an empty table,
otherwise group the three temperature columns by the derived hour, take the
mean, rename the series positionally and melt to long form; any failure in
that body (such as the KeyError of a missing column) is caught and turned
into the error placeholder. -/
def update_hourly_temperature (t : Table) : Figure (List (String × Nat × Val)) :=
  if t.isEmpty then .noData
  else
    match hourlyMeans t hourlyTempCols with
    | .ok wide => .chart (meltLong plotTypeLabels (renameSeries plotTypeLabels wide))
    | .error _ => .errorData

/-- Callback update_monthly_temperature: placeholder on an empty table,
otherwise group the same three temperature columns by the ordered categorical
month, take the mean, rename and melt; failures are caught into the error
placeholder. -/
def update_monthly_temperature (t : Table) : Figure (List (String × String × Val)) :=
  if t.isEmpty then .noData
  else
    match monthlyMeans t hourlyTempCols with
    | .ok wide => .chart (meltLong plotTypeLabels (renameSeries plotTypeLabels wide))
    | .error _ => .errorData

/-- Python substring membership pat in s, on character lists. -/
def substrContains (s pat : String) : Bool :=
  s.data.tails.any (fun t => pat.data.isPrefixOf t)

/-- The plot-type tags of the column classifier. -/
inductive PlotType where
  | agrivoltaic | control | groundPV | weatherStation | other
deriving DecidableEq, Repr

/-- classify_plot: substring rules in source order; first match wins,
defaulting to Other. -/
def classify_plot (col : String) : PlotType :=
  if substrContains col "AG-PV" || substrContains col "AG-TI" || substrContains col "AG-SS" then
    .agrivoltaic
  else if substrContains col "AO-TI" || substrContains col "AO-SS" then .control
  else if substrContains col "PO-PV" then .groundPV
  else if substrContains col "WS" then .weatherStation
  else .other

/-- The measurement-type tags of the column classifier. -/
inductive SensorType where
  | irradiation | temperature | humidity | rainfall | other
deriving DecidableEq, Repr

/-- get_sensor_type: substring rules in source order; first match wins,
defaulting to Other. -/
def get_sensor_type (sensor : String) : SensorType :=
  if substrContains sensor "Irr" then .irradiation
  else if substrContains sensor "/T" then .temperature
  else if substrContains sensor "/RH" then .humidity
  else if substrContains sensor "/P" then .rainfall
  else .other

/-- A raw CSV row before type coercion: every field still a string. -/
structure RawRow where
  date : String
  time : String
  month : String
  tstamp : String
  cells : List (String × Val)
deriving DecidableEq, Repr

/-- A successfully read and parsed CSV file. -/
structure RawCsv where
  cols : List String
  rows : List RawRow
deriving DecidableEq, Repr

/-- Best-effort date coercion pd.to_datetime(DATE, errors=coerce): a string of
the form YYYY-MM-DD with an in-range month and day parses to a date triple;
anything else becomes missing (NaT). -/
def parseDate (s : String) : Option (Nat × Nat × Nat) :=
  match (splitOnChar '-' s.data).map parseNatDigits with
  | [some y, some m, some d] =>
      if 1 ≤ m && m ≤ 12 && 1 ≤ d && d ≤ 31 then some (y, m, d) else none
  | _ => none

/-- The empty table returned by load_data on failure: zero rows, zero
columns. -/
def emptyTable : Table := ⟨[], []⟩

/-- load_data: the whole body runs under a try handler, so a read, parse or
file-not-found failure (the error side of the input) yields the empty table;
on success the DATE column is coerced with unparseable entries becoming
missing, and the column set and cell values are kept as parsed. -/
def load_data (input : Except String RawCsv) : Table :=
  match input with
  | .error _ => emptyTable
  | .ok raw =>
      ⟨raw.cols, raw.rows.map (fun r =>
        ⟨parseDate r.date, r.time, r.month, r.tstamp, r.cells⟩)⟩

/-- Whitespace trim of both ends of a character list. -/
def trimChars (cs : List Char) : List Char :=
  ((cs.dropWhile Char.isWhitespace).reverse.dropWhile Char.isWhitespace).reverse

/-- pandas str.strip on a column label. -/
def stripLabel (s : String) : String := ⟨trimChars s.data⟩

/-- The table mutation performed by update_irradiance_comparison on every
invocation: merged_df.columns = merged_df.columns.str.strip(), which renames
every column label to its whitespace-stripped form while keeping all cell
values. -/
def stripColumns (t : Table) : Table :=
  ⟨t.cols.map stripLabel,
   t.rows.map (fun r => { r with cells := r.cells.map (fun p => (stripLabel p.1, p.2)) })⟩

/-- The shaded temperature sensors of update_temperature_comparison. -/
def tempGroupsShaded : List String := ["AG-PV P1/T (oC)", "AG-SS P1/T (oC)"]

/-- The control temperature sensors of update_temperature_comparison. -/
def tempGroupsControl : List String := ["AO-TI P2/T (oC)", "AO-SS P1/T (oC)"]

/-- The full column selection of update_temperature_comparison. -/
def tempCompCols : List String := tempGroupsShaded ++ tempGroupsControl

/-- pandas df[cs]: the selected columns with all their values; KeyError when a
label is absent. -/
def selectColumns (t : Table) (cs : List String) :
    Except String (List (String × List Val)) :=
  if colsPresent t cs then
    .ok (cs.map (fun c => (c, t.rows.map (fun r => cellVal r c))))
  else .error "KeyError"

/-- The Condition label of update_temperature_comparison: Shaded when any
shaded sensor name occurs in the melted Sensor value, Control otherwise. -/
def condLabel (x : String) : String :=
  if tempGroupsShaded.any (fun ag => substrContains x ag) then "Shaded (AG)"
  else "Control (AO)"

/-- Callback update_temperature_comparison: placeholder on an empty table,
otherwise select the four hardcoded temperature columns, melt to
(sensor, value) pairs, drop missing values, and attach the Condition label;
a failure in the body (such as the KeyError of a missing column) is caught
into the error placeholder. -/
def update_temperature_comparison (t : Table) :
    Figure (List (String × String × ℚ)) :=
  if t.isEmpty then .noData
  else
    match selectColumns t tempCompCols with
    | .ok sel =>
        .chart (sel.flatMap (fun g =>
          g.2.filterMap (fun v => v.map (fun q => (g.1, condLabel g.1, q)))))
    | .error _ => .errorData

/-- Lowercasing of a column name (col.lower()). -/
def toLowerStr (s : String) : String := ⟨s.data.map Char.toLower⟩

/-- The rainfall-column name test of update_rainfall_chart. -/
def rainfallNameMatch (c : String) : Bool :=
  substrContains (toLowerStr c) "rainfall" || substrContains (toLowerStr c) "rain"
    || substrContains (toLowerStr c) "p (mm)"

/-- Timestamp coercion: the date part before the first blank, parsed as a
date. -/
def parseTimestamp (s : String) : Option (Nat × Nat × Nat) :=
  match splitOnChar ' ' s.data with
  | d :: _ => parseDate ⟨d⟩
  | [] => none

/-- pd.to_datetime without coerce over a whole column: raises on the first
unparseable entry. -/
def parseAllTimestamps : List String → Except String (List (Nat × Nat × Nat))
  | [] => .ok []
  | s :: rest =>
      match parseTimestamp s, parseAllTimestamps rest with
      | some d, .ok ds => .ok (d :: ds)
      | none, _ => .error "to_datetime"
      | _, .error e => .error e

/-- Lexicographic order on (year, month) periods. -/
def periodLe (a b : Nat × Nat) : Bool :=
  a.1 < b.1 || (a.1 == b.1 && a.2 ≤ b.2)

/-- Insert into an ascending list of periods. -/
def insertPeriod (x : Nat × Nat) : List (Nat × Nat) → List (Nat × Nat)
  | [] => [x]
  | y :: ys => if periodLe x y then x :: y :: ys else y :: insertPeriod x ys

/-- Ascending insertion sort on periods. -/
def sortPeriods (l : List (Nat × Nat)) : List (Nat × Nat) := l.foldr insertPeriod []

/-- The three chart shapes update_rainfall_chart can produce: the monthly
mean line of the WS/P (mm) column, the per-period rainfall sum bars, or the
sample scatter of the first hundred rows of the first column. -/
inductive RainPayload where
  | monthLine : List (String × Val) → RainPayload
  | periodBar : List ((Nat × Nat) × ℚ) → RainPayload
  | sample : List (Option (Nat × Nat × Nat)) → RainPayload
deriving DecidableEq, Repr

/-- The try body of update_rainfall_chart: prefer the WS/P (mm) monthly mean;
otherwise look for a rainfall-named column and a timestamp column and sum per
calendar period (to_datetime without coerce raising on a bad timestamp);
otherwise fall back to the sample scatter. -/
def rainfall_body (t : Table) : Except String RainPayload :=
  if t.cols.contains "WS/P (mm)" then
    .ok (.monthLine (monthOrder.map (fun m =>
      (m, meanOf (monthGroupVals t "WS/P (mm)" m)))))
  else
    match t.cols.filter rainfallNameMatch with
    | [] => .ok (.sample ((t.rows.take 100).map (·.date)))
    | rc :: _ =>
      let tcol := if t.cols.contains "timestamp" then "timestamp" else "Timestamp"
      if t.cols.contains tcol then
        match parseAllTimestamps (t.rows.map (·.tstamp)) with
        | .error e => .error e
        | .ok ds =>
          let periods := ds.map (fun d => (d.1, d.2.1))
          let prs := t.rows.zip periods
          .ok (.periodBar ((sortPeriods periods.dedup).map (fun p =>
            (p, ((prs.filter (fun pr => pr.2 == p)).filterMap
                  (fun pr => cellVal pr.1 rc)).sum))))
      else .ok (.sample ((t.rows.take 100).map (·.date)))

/-- Callback update_rainfall_chart: the no-data placeholder on an empty
table; otherwise the try body, with any failure caught into the error
placeholder figure. -/
def update_rainfall_chart (t : Table) : Figure RainPayload :=
  if t.isEmpty then .noData
  else
    match rainfall_body t with
    | .ok p => .chart p
    | .error _ => .errorData

/-- One row of the trend_data frame of app.py. -/
structure TrendRow where
  year : Int
  rate : ℚ
  predicted : Option ℚ
deriving DecidableEq, Repr

/-- The trend_data frame: years 2015 to 2025 with the literal stunting rates
and the predictions present from 2021 on. -/
def trend_data : List TrendRow :=
  [⟨2015, 425/10, none⟩, ⟨2016, 418/10, none⟩, ⟨2017, 402/10, none⟩,
   ⟨2018, 389/10, none⟩, ⟨2019, 375/10, none⟩, ⟨2020, 362/10, none⟩,
   ⟨2021, 35, some 35⟩, ⟨2022, 338/10, some (338/10)⟩,
   ⟨2023, 325/10, some (325/10)⟩, ⟨2024, 312/10, some (312/10)⟩,
   ⟨2025, 30, some 30⟩]

/-- The trend chart description: the actual series and the predicted
series. -/
structure TrendFigure where
  actual : List (Int × ℚ)
  predicted : List (Int × Option ℚ)
deriving DecidableEq, Repr

/-- Callback update_trend_chart of app.py: the actual trace over the rows
with Year at most 2023 and the predicted trace over the rows with Year at
least 2023; the selected_year argument appears nowhere in the body. -/
def update_trend_chart (selected_year : Int) : TrendFigure :=
  ⟨(trend_data.filter (fun r => r.year ≤ 2023)).map (fun r => (r.year, r.rate)),
   (trend_data.filter (fun r => 2023 ≤ r.year)).map (fun r => (r.year, r.predicted))⟩

/-- One row of the district_data frame of app.py. -/
structure DistrictRow where
  district : String
  risk : String
  rate : ℚ
deriving DecidableEq, Repr

/-- The district_data frame with the literal districts, risk levels and
stunting rates. -/
def district_data : List DistrictRow :=
  [⟨"Bugesera", "High", 412/10⟩, ⟨"Nyagatare", "High", 405/10⟩,
   ⟨"Gatsibo", "High", 398/10⟩, ⟨"Kayonza", "High", 389/10⟩,
   ⟨"Ngoma", "High", 385/10⟩, ⟨"Kirehe", "High", 379/10⟩,
   ⟨"Rwamagana", "Medium", 345/10⟩, ⟨"Huye", "High", 372/10⟩,
   ⟨"Gisagara", "High", 368/10⟩, ⟨"Nyaruguru", "High", 391/10⟩,
   ⟨"Kamonyi", "High", 365/10⟩, ⟨"Muhanga", "High", 378/10⟩]

/-- The bar color rule of update_districts_chart. -/
def colorOf (rate : ℚ) : String :=
  if 39 < rate then "#F56565" else if 37 < rate then "#ED8936" else "#ECC94B"

/-- Insert into a list of district rows ascending by stunting rate. -/
def insertByRate (x : DistrictRow) : List DistrictRow → List DistrictRow
  | [] => [x]
  | y :: ys => if x.rate ≤ y.rate then x :: y :: ys else y :: insertByRate x ys

/-- sort_values on the stunting rate, ascending. -/
def sortByRate (l : List DistrictRow) : List DistrictRow := l.foldr insertByRate []

/-- The districts chart description: the ordered rows and their bar
colors. -/
structure DistrictsFigure where
  rows : List DistrictRow
  colors : List String
deriving DecidableEq, Repr

/-- Callback update_districts_chart of app.py: filter district_data to the
High risk level, sort ascending by stunting rate, and attach the threshold
colors; the region argument appears nowhere in the body. -/
def update_districts_chart (region : String) : DistrictsFigure :=
  let df := sortByRate (district_data.filter (fun d => d.risk == "High"))
  ⟨df, df.map (fun d => colorOf d.rate)⟩

/-- The concrete order in which update_districts_chart lists the High-risk
districts: ascending by stunting rate. -/
theorem districts_chart_concrete_order : (update_districts_chart "all").rows.map (·.district)
    = ["Kamonyi", "Gisagara", "Huye", "Muhanga", "Kirehe", "Ngoma",
       "Kayonza", "Nyaruguru", "Gatsibo", "Nyagatare", "Bugesera"] := by
  simp +decide only [update_districts_chart, sortByRate, district_data,
    List.filter_cons]
  norm_num [insertByRate]

/-! Concrete tables used to instantiate the claim theorems. -/

/-- A one-row table whose single sensor column is entirely missing within its
only hour group. -/
def tAllMissing : Table :=
  ⟨["A"], [⟨none, "05:00:00", "May", "", [("A", none)]⟩]⟩

/-- A table carrying two of the three columns update_hourly_temperature
selects, with data present. -/
def tMissingCol : Table :=
  ⟨["AG-PV P3/T (oC)", "AO-TI P2/T (oC)"],
   [⟨none, "05:00:00", "May", "",
     [("AG-PV P3/T (oC)", some 24), ("AO-TI P2/T (oC)", some 30)]⟩]⟩

/-- A table whose only sensor column name carries surrounding whitespace. -/
def tPadded : Table :=
  ⟨[" X "], [⟨none, "", "May", "", [(" X ", some 1)]⟩]⟩

/-- A table whose column names are already stripped. -/
def tClean : Table :=
  ⟨["X"], [⟨none, "", "May", "", [("X", some 1)]⟩]⟩

/-- A table with one row for each of the five supported months and one for an
unsupported month value. -/
def tAllMonths : Table :=
  ⟨["A"],
   [⟨none, "01:00:00", "May", "", [("A", some 1)]⟩,
    ⟨none, "02:00:00", "June", "", [("A", some 2)]⟩,
    ⟨none, "03:00:00", "July", "", [("A", some 3)]⟩,
    ⟨none, "04:00:00", "August", "", [("A", some 4)]⟩,
    ⟨none, "05:00:00", "October", "", [("A", some 5)]⟩]⟩

/-- The rows of tAllMonths in scrambled order. -/
def scrambledRows : List SRow :=
  [⟨none, "03:00:00", "July", "", [("A", some 3)]⟩,
   ⟨none, "05:00:00", "October", "", [("A", some 5)]⟩,
   ⟨none, "01:00:00", "May", "", [("A", some 1)]⟩,
   ⟨none, "04:00:00", "August", "", [("A", some 4)]⟩,
   ⟨none, "02:00:00", "June", "", [("A", some 2)]⟩]

/-- A row whose Month value lies outside the five ordered categories. -/
def marchRow : SRow := ⟨none, "06:00:00", "March", "", [("A", some 99)]⟩

/-- A table with a rainfall-named column and a timestamp column whose only
timestamp fails to parse. -/
def tBadTs : Table :=
  ⟨["rain (mm)", "timestamp"],
   [⟨none, "", "May", "oops", [("rain (mm)", some 2)]⟩]⟩

/-! Helper lemmas about the sorting, parsing and mean helpers. -/

theorem insertAsc_perm (x : Nat) (l : List Nat) : (insertAsc x l).Perm (x :: l) := by
  induction l with
  | nil => exact List.Perm.refl _
  | cons y ys ih =>
    unfold insertAsc
    split
    · exact List.Perm.refl _
    · exact (ih.cons y).trans (List.Perm.swap x y ys)

theorem sortAsc_perm (l : List Nat) : (sortAsc l).Perm l := by
  induction l with
  | nil => exact List.Perm.refl _
  | cons y ys ih => exact (insertAsc_perm y (sortAsc ys)).trans (ih.cons y)

theorem parseHour_lt {s : String} {h : Nat} (hp : parseHour s = some h) : h < 24 := by
  unfold parseHour at hp
  split at hp
  · split at hp
    · rename_i hcond
      simp only [Bool.and_eq_true, decide_eq_true_eq] at hcond
      cases hp
      omega
    · cases hp
  · split at hp
    · rename_i hcond
      simp only [Bool.and_eq_true, decide_eq_true_eq] at hcond
      cases hp
      omega
    · cases hp
  · cases hp

theorem mem_hourKeys {t : Table} {k : Nat} (hk : k ∈ hourKeys t) : k < 24 := by
  unfold hourKeys at hk
  have h1 : k ∈ (t.rows.filterMap hourOf).dedup := (sortAsc_perm _).mem_iff.mp hk
  have h2 : k ∈ t.rows.filterMap hourOf := (List.mem_dedup).mp h1
  obtain ⟨r, _, hr⟩ := List.mem_filterMap.mp h2
  exact parseHour_lt hr

theorem hourKeys_nodup (t : Table) : (hourKeys t).Nodup := by
  unfold hourKeys
  exact ((sortAsc_perm _).nodup_iff).mpr (List.nodup_dedup _)

theorem meanOf_perm {l1 l2 : List ℚ} (h : l1.Perm l2) : meanOf l1 = meanOf l2 := by
  unfold meanOf
  have hs : l1.sum = l2.sum := h.sum_eq
  have hl : l1.length = l2.length := h.length_eq
  by_cases h1 : l1 = []
  · subst h1
    have : l2 = [] := (List.Perm.nil_eq h).symm
    simp [this]
  · have h2 : l2 ≠ [] := by
      intro hc
      exact h1 (List.eq_nil_of_length_eq_zero (by simp [hl, hc]))
    simp [h1, h2, hs, hl]

theorem mem_insertByRate {d x : DistrictRow} {l : List DistrictRow} :
    d ∈ insertByRate x l ↔ d = x ∨ d ∈ l := by
  induction l with
  | nil => simp [insertByRate]
  | cons y ys ih =>
    unfold insertByRate
    split
    · simp
    · simp [ih]
      tauto

theorem mem_sortByRate {d : DistrictRow} {l : List DistrictRow} :
    d ∈ sortByRate l ↔ d ∈ l := by
  induction l with
  | nil => simp [sortByRate]
  | cons y ys ih =>
    show d ∈ insertByRate y (sortByRate ys) ↔ _
    rw [mem_insertByRate]
    simp [ih]

theorem insertByRate_sorted {x : DistrictRow} {l : List DistrictRow}
    (h : l.Pairwise (fun a b => a.rate ≤ b.rate)) :
    (insertByRate x l).Pairwise (fun a b => a.rate ≤ b.rate) := by
  induction l with
  | nil => simp [insertByRate]
  | cons y ys ih =>
    unfold insertByRate
    rw [List.pairwise_cons] at h
    split
    · rename_i hxy
      rw [List.pairwise_cons]
      refine ⟨?_, List.pairwise_cons.mpr h⟩
      intro z hz
      rcases List.mem_cons.mp hz with hzy | hzys
      · exact hzy ▸ hxy
      · exact le_trans hxy (h.1 z hzys)
    · rename_i hxy
      rw [List.pairwise_cons]
      refine ⟨?_, ih h.2⟩
      intro z hz
      rcases mem_insertByRate.mp hz with hzx | hzys
      · exact hzx ▸ le_of_not_le hxy
      · exact h.1 z hzys

theorem sortByRate_sorted (l : List DistrictRow) :
    (sortByRate l).Pairwise (fun a b => a.rate ≤ b.rate) := by
  induction l with
  | nil => simp [sortByRate]
  | cons y ys ih => exact insertByRate_sorted ih

theorem map_fst_keyed {α β : Type} (l : List α) (f : α → β) :
    (l.map (fun k => (k, f k))).map Prod.fst = l := by
  induction l with
  | nil => rfl
  | cons x xs ih => simp [ih]

/-! The claim theorems. -/

/-- Claim C7: classify_plot and get_sensor_type are total and deterministic:
for any string input each returns a value from its fixed enum, defaulting to
Other when no substring rule matches, and on the column name
AO-SS P1/RH (%) they return Control and Humidity respectively. -/
theorem c7_classification_total :
    (∀ s : String, classify_plot s = .agrivoltaic ∨ classify_plot s = .control ∨
      classify_plot s = .groundPV ∨ classify_plot s = .weatherStation ∨
      classify_plot s = .other) ∧
    (∀ s : String, get_sensor_type s = .irradiation ∨
      get_sensor_type s = .temperature ∨ get_sensor_type s = .humidity ∨
      get_sensor_type s = .rainfall ∨ get_sensor_type s = .other) ∧
    classify_plot "AO-SS P1/RH (%)" = .control ∧
    get_sensor_type "AO-SS P1/RH (%)" = .humidity := by
  refine ⟨?_, ?_, by decide, by decide⟩
  · intro s
    unfold classify_plot
    split_ifs <;> simp
  · intro s
    unfold get_sensor_type
    split_ifs <;> simp

/-- Claim C8: load_data never raises past its boundary: a read, parse or
file-not-found failure yields the empty table with zero rows and zero
columns, and a successful read yields the parsed table with the column set
kept, the cell values kept, and the DATE column coerced with unparseable
entries becoming missing. -/
theorem c8_load_never_raises :
    (∀ e : String, load_data (.error e) = emptyTable ∧
      (load_data (.error e)).rows.length = 0 ∧
      (load_data (.error e)).cols.length = 0) ∧
    (∀ raw : RawCsv, (load_data (.ok raw)).cols = raw.cols ∧
      (load_data (.ok raw)).rows.map (·.date)
        = raw.rows.map (fun r => parseDate r.date) ∧
      (load_data (.ok raw)).rows.map (·.cells) = raw.rows.map (·.cells)) ∧
    parseDate "2021-06-15" = some (2021, 6, 15) ∧
    parseDate "not a date" = none := by
  refine ⟨fun e => ⟨rfl, rfl, rfl⟩, fun raw => ⟨rfl, ?_, ?_⟩, by decide, by decide⟩
  · simp [load_data]
  · simp [load_data]

/-- Claim C10: update_districts_chart is independent of its region argument,
always charting exactly the districts whose risk level is High, sorted by
stunting rate in ascending order. -/
theorem c10_districts_region_independent :
    (∀ r1 r2 : String, update_districts_chart r1 = update_districts_chart r2) ∧
    (∀ r : String, ∀ d : DistrictRow,
      d ∈ (update_districts_chart r).rows ↔ d ∈ district_data ∧ d.risk = "High") ∧
    (∀ r : String,
      (update_districts_chart r).rows.Pairwise (fun a b => a.rate ≤ b.rate)) := by
  refine ⟨fun r1 r2 => rfl, fun r d => ?_, fun r => sortByRate_sorted _⟩
  show d ∈ sortByRate (district_data.filter (fun d => d.risk == "High")) ↔ _
  rw [mem_sortByRate, List.mem_filter]
  simp

/-- Claim C4 counterexample: two distinct selected years produce the
identical trend figure, so the output of update_trend_chart does not depend
on the year argument. -/
theorem c4_trend_year_cex :
    update_trend_chart 2015 = update_trend_chart 2025 ∧ (2015 : Int) ≠ 2025 :=
  ⟨rfl, by decide⟩

/-- Claim C4 amended: the output of update_trend_chart is independent of the
selected year; the chart is always built from the fixed split of trend_data
at year 2023 (actual trace over years at most 2023, predicted trace over
years at least 2023), so the year filter does not narrow the rows feeding
it. -/
theorem c4_trend_year_independent :
    (∀ y1 y2 : Int, update_trend_chart y1 = update_trend_chart y2) ∧
    (∀ y : Int, (∀ p ∈ (update_trend_chart y).actual, p.1 ≤ 2023) ∧
      (∀ p ∈ (update_trend_chart y).predicted, 2023 ≤ p.1)) := by
  refine ⟨fun y1 y2 => rfl, fun y => ⟨?_, ?_⟩⟩
  · intro p hp
    simp only [update_trend_chart, List.mem_map, List.mem_filter,
      decide_eq_true_eq] at hp
    obtain ⟨rr, ⟨_, hy⟩, hpr⟩ := hp
    exact hpr ▸ hy
  · intro p hp
    simp only [update_trend_chart, List.mem_map, List.mem_filter,
      decide_eq_true_eq] at hp
    obtain ⟨rr, ⟨_, hy⟩, hpr⟩ := hp
    exact hpr ▸ hy

/-- Claim C4 witness: the amended theorem applied at concrete years and a
concrete chart point. -/
theorem c4_trend_year_witness :
    update_trend_chart 2015 = update_trend_chart 2019 ∧ ((2015 : Int) ≤ 2023) :=
  ⟨c4_trend_year_independent.1 2015 2019,
   (c4_trend_year_independent.2 2019).1 ((2015 : Int), (425 / 10 : ℚ)) (by
     simp +decide [update_trend_chart, trend_data, List.filter_cons])⟩

/-- Claim C5 counterexample: the column-name strip performed by
update_irradiance_comparison on every invocation renames a sensor column
whose name carries surrounding whitespace, so the set of sensor column names
is not the same before and after the call. -/
theorem c5_mutation_cex :
    (stripColumns tPadded).cols = ["X"] ∧ tPadded.cols = [" X "] ∧
    stripColumns tPadded ≠ tPadded :=
  ⟨by decide, rfl, by decide⟩

/-- Claim C5 amended: chart-recomputation calls never change stored cell
values, but update_irradiance_comparison strips surrounding whitespace from
every column name on each invocation; the table is left entirely unchanged
only when all column names are already stripped. -/
theorem c5_mutation_amended :
    (∀ t : Table, (stripColumns t).rows.map (fun r => r.cells.map Prod.snd)
      = t.rows.map (fun r => r.cells.map Prod.snd)) ∧
    (∀ t : Table, (∀ c ∈ t.cols, stripLabel c = c) →
      (∀ r ∈ t.rows, ∀ p ∈ r.cells, stripLabel p.1 = p.1) →
      stripColumns t = t) := by
  constructor
  · intro t
    simp only [stripColumns, List.map_map]
    apply List.map_congr_left
    intro r _
    simp [List.map_map]
  · intro t h1 h2
    obtain ⟨cols, rows⟩ := t
    simp only [stripColumns, Table.mk.injEq]
    constructor
    · rw [List.map_congr_left (fun c hc => h1 c hc)]
      exact List.map_id cols
    · have : ∀ r ∈ rows,
          ({ r with cells := r.cells.map (fun p => (stripLabel p.1, p.2)) } : SRow) = r := by
        intro r hr
        have hc : r.cells.map (fun p => (stripLabel p.1, p.2)) = r.cells := by
          rw [List.map_congr_left (fun p hp => by rw [h2 r hr p hp])]
          exact List.map_id r.cells
        cases r
        simp_all
      rw [List.map_congr_left this]
      exact List.map_id rows

/-- Claim C5 witness: the amended theorem applied to a concrete table whose
column names carry no surrounding whitespace. -/
theorem c5_mutation_witness : stripColumns tClean = tClean :=
  c5_mutation_amended.2 tClean (by decide) (by decide)

/-- Claim C1 counterexample: on a nonempty table missing one of the selected
columns, the groupby selection fails with a KeyError rather than silently
skipping the missing column, and the callback returns the error placeholder
instead of the aggregation over the valid columns alone (which would
succeed). -/
theorem c1_missing_column_cex :
    hourlyMeans tMissingCol hourlyTempCols = .error "KeyError" ∧
    (hourlyMeans tMissingCol ["AG-PV P3/T (oC)", "AO-TI P2/T (oC)"]).isOk = true ∧
    update_hourly_temperature tMissingCol = .errorData ∧
    update_temperature_comparison tMissingCol = .errorData :=
  ⟨rfl, rfl, rfl, rfl⟩

/-- Claim C1 amended: a selected column name absent from the table does not
make the aggregation silently skip that column; the column selection raises a
KeyError, the callback catches it and returns the error-placeholder figure,
so no error reaches the caller but the valid-columns result is not
produced. -/
theorem c1_missing_column_amended : ∀ t : Table,
    (∀ cs, colsPresent t cs = false → hourlyMeans t cs = .error "KeyError") ∧
    (t.isEmpty = false → colsPresent t hourlyTempCols = false →
      update_hourly_temperature t = .errorData) ∧
    (t.isEmpty = false → colsPresent t tempCompCols = false →
      update_temperature_comparison t = .errorData) := by
  intro t
  refine ⟨fun cs h => ?_, fun he h => ?_, fun he h => ?_⟩
  · simp [hourlyMeans, h]
  · simp [update_hourly_temperature, he, hourlyMeans, h]
  · simp [update_temperature_comparison, he, selectColumns, h]

/-- Claim C1 witness: the amended theorem applied at a concrete nonempty
table missing a selected column. -/
theorem c1_missing_column_witness :
    hourlyMeans tMissingCol ["PO-PV/T (oC)"] = .error "KeyError" ∧
    update_hourly_temperature tMissingCol = Figure.errorData ∧
    update_temperature_comparison tMissingCol = Figure.errorData :=
  ⟨(c1_missing_column_amended tMissingCol).1 _ (by decide),
   (c1_missing_column_amended tMissingCol).2.1 (by decide) (by decide),
   (c1_missing_column_amended tMissingCol).2.2 (by decide) (by decide)⟩

/-- Claim C2 counterexample: a group all of whose values of the selected
column are missing still yields an output row for that (group, series) pair,
carrying a missing value, both under hour grouping and under month grouping;
the pair is present with NaN, not absent. -/
theorem c2_empty_group_cex :
    hourGroupVals tAllMissing "A" 5 = [] ∧
    hourlyMeans tAllMissing ["A"] = .ok [(5, [("A", none)])] ∧
    monthGroupVals tAllMissing "A" "June" = [] ∧
    monthlyMeans tAllMissing ["A"]
      = .ok [("May", [("A", none)]), ("June", [("A", none)]),
             ("July", [("A", none)]), ("August", [("A", none)]),
             ("October", [("A", none)])] :=
  ⟨rfl, rfl, rfl, rfl⟩

/-- Claim C2 amended: under mean-based hour or month grouping, a group with
zero contributing non-missing values for a selected column yields an output
row for that (group, series) pair whose value is missing (NaN): the pair is
present with a missing value, not absent and not zero. -/
theorem c2_empty_group_amended : ∀ t cs, colsPresent t cs = true → ∀ c ∈ cs,
    (∀ h ∈ hourKeys t, hourGroupVals t c h = [] →
      ∃ g, hourlyMeans t cs = .ok g ∧
        ∃ vs, (h, vs) ∈ g ∧ (c, (none : Val)) ∈ vs) ∧
    (∀ m ∈ monthOrder, monthGroupVals t c m = [] →
      ∃ g, monthlyMeans t cs = .ok g ∧
        ∃ vs, (m, vs) ∈ g ∧ (c, (none : Val)) ∈ vs) := by
  intro t cs hcs c hc
  constructor
  · intro h hh hempty
    refine ⟨(hourKeys t).map (fun k =>
        (k, cs.map (fun c2 => (c2, meanOf (hourGroupVals t c2 k))))),
      by simp [hourlyMeans, hcs], ?_⟩
    refine ⟨cs.map (fun c2 => (c2, meanOf (hourGroupVals t c2 h))),
      List.mem_map.mpr ⟨h, hh, rfl⟩, ?_⟩
    have hm : meanOf (hourGroupVals t c h) = none := by simp [hempty, meanOf]
    exact List.mem_map.mpr ⟨c, hc, by simp [hm]⟩
  · intro m hm hempty
    refine ⟨monthOrder.map (fun m2 =>
        (m2, cs.map (fun c2 => (c2, meanOf (monthGroupVals t c2 m2))))),
      by simp [monthlyMeans, hcs], ?_⟩
    refine ⟨cs.map (fun c2 => (c2, meanOf (monthGroupVals t c2 m))),
      List.mem_map.mpr ⟨m, hm, rfl⟩, ?_⟩
    have hmn : meanOf (monthGroupVals t c m) = none := by simp [hempty, meanOf]
    exact List.mem_map.mpr ⟨c, hc, by simp [hmn]⟩

/-- Claim C2 witness: the amended theorem applied at a concrete table with an
all-missing column, for hour group 5 and month group June. -/
theorem c2_empty_group_witness :
    (∃ g, hourlyMeans tAllMissing ["A"] = .ok g ∧
      ∃ vs, (5, vs) ∈ g ∧ ("A", (none : Val)) ∈ vs) ∧
    (∃ g, monthlyMeans tAllMissing ["A"] = .ok g ∧
      ∃ vs, ("June", vs) ∈ g ∧ ("A", (none : Val)) ∈ vs) :=
  ⟨(c2_empty_group_amended tAllMissing ["A"] (by decide) "A" (by decide)).1
      5 (by decide) (by decide),
   (c2_empty_group_amended tAllMissing ["A"] (by decide) "A" (by decide)).2
      "June" (by decide) (by decide)⟩

/-- Claim C6: for every table and every selected column set contained in the
table columns, hour-grouped aggregation succeeds and its group keys are
pairwise distinct naturals below 24; rows whose time-of-day fails to parse
contribute no key. -/
theorem c6_hour_keys_bounded : ∀ t cs, colsPresent t cs = true →
    ∃ g, hourlyMeans t cs = .ok g ∧ g.map Prod.fst = hourKeys t ∧
      (g.map Prod.fst).Nodup ∧ ∀ k ∈ g.map Prod.fst, k < 24 := by
  intro t cs h
  refine ⟨(hourKeys t).map (fun k =>
    (k, cs.map (fun c => (c, meanOf (hourGroupVals t c k))))),
    by simp [hourlyMeans, h], map_fst_keyed _ _, ?_, ?_⟩
  · rw [map_fst_keyed]
    exact hourKeys_nodup t
  · intro k hk
    rw [map_fst_keyed] at hk
    exact mem_hourKeys hk

/-- Claim C6 witness: the theorem applied at a concrete table. -/
theorem c6_hour_keys_witness :
    ∃ g, hourlyMeans tAllMonths ["A"] = .ok g ∧
      g.map Prod.fst = hourKeys tAllMonths ∧
      (g.map Prod.fst).Nodup ∧ ∀ k ∈ g.map Prod.fst, k < 24 :=
  c6_hour_keys_bounded tAllMonths ["A"] (by decide)

/-- Claim C3: month-grouped aggregation of a table holding rows for all five
supported months lists its group keys in the fixed order May, June, July,
August, October; the result is invariant under any permutation of the rows,
and a row whose month value lies outside the five categories is excluded
from the grouping. -/
theorem c3_month_order : ∀ t cs, colsPresent t cs = true →
    (∀ m ∈ monthOrder, ∃ r ∈ t.rows, r.month = m) →
    (∃ g, monthlyMeans t cs = .ok g ∧ g.map Prod.fst = monthOrder) ∧
    (∀ rows2 : List SRow, rows2.Perm t.rows →
      monthlyMeans ⟨t.cols, rows2⟩ cs = monthlyMeans t cs) ∧
    (∀ r : SRow, monthCode r.month = none →
      monthlyMeans ⟨t.cols, r :: t.rows⟩ cs = monthlyMeans t cs) := by
  intro t cs hcs _
  refine ⟨⟨monthOrder.map (fun m =>
      (m, cs.map (fun c => (c, meanOf (monthGroupVals t c m))))),
    by simp [monthlyMeans, hcs], map_fst_keyed _ _⟩, ?_, ?_⟩
  · intro rows2 hperm
    have hc2 : colsPresent ⟨t.cols, rows2⟩ cs = true := hcs
    simp only [monthlyMeans, hc2, hcs, if_true, Except.ok.injEq]
    apply List.map_congr_left
    intro m _
    simp only [Prod.mk.injEq, true_and]
    apply List.map_congr_left
    intro c _
    simp only [Prod.mk.injEq, true_and]
    apply meanOf_perm
    exact (hperm.filter _).filterMap _
  · intro r hr
    have hc2 : colsPresent ⟨t.cols, r :: t.rows⟩ cs = true := hcs
    simp only [monthlyMeans, hc2, hcs, if_true, Except.ok.injEq]
    apply List.map_congr_left
    intro m hm
    simp only [Prod.mk.injEq, true_and]
    apply List.map_congr_left
    intro c _
    simp only [Prod.mk.injEq, true_and]
    have hne : r.month ≠ m := by
      intro he
      unfold monthCode at hr
      rw [he] at hr
      simp [hm] at hr
    unfold monthGroupVals
    simp [List.filter_cons, hne]

/-- Claim C3 witness: the theorem applied at a concrete table holding all
five months, its rows scrambled, and an out-of-category March row. -/
theorem c3_month_order_witness :
    (∃ g, monthlyMeans tAllMonths ["A"] = .ok g ∧ g.map Prod.fst = monthOrder) ∧
    monthlyMeans ⟨tAllMonths.cols, scrambledRows⟩ ["A"]
      = monthlyMeans tAllMonths ["A"] ∧
    monthlyMeans ⟨tAllMonths.cols, marchRow :: tAllMonths.rows⟩ ["A"]
      = monthlyMeans tAllMonths ["A"] :=
  ⟨(c3_month_order tAllMonths ["A"] (by decide) (by decide)).1,
   (c3_month_order tAllMonths ["A"] (by decide) (by decide)).2.1
      scrambledRows (by decide),
   (c3_month_order tAllMonths ["A"] (by decide) (by decide)).2.2
      marchRow (by decide)⟩

/-- Claim C9: the modelled chart callbacks are total: on an empty table each
returns the no-data placeholder; update_rainfall_chart always returns one of
the placeholder figures or a chart, returning the error placeholder exactly
when its try body fails and the chart of the body result when it
succeeds. -/
theorem c9_callbacks_total : ∀ t : Table,
    (t.isEmpty = true →
      update_rainfall_chart t = .noData ∧
      update_hourly_temperature t = .noData ∧
      update_monthly_temperature t = .noData ∧
      update_temperature_comparison t = .noData) ∧
    (update_rainfall_chart t = .noData ∨ update_rainfall_chart t = .errorData ∨
      ∃ p, update_rainfall_chart t = .chart p) ∧
    (update_hourly_temperature t = .noData ∨
      update_hourly_temperature t = .errorData ∨
      ∃ d, update_hourly_temperature t = .chart d) ∧
    (∀ e, rainfall_body t = .error e → t.isEmpty = false →
      update_rainfall_chart t = .errorData) ∧
    (∀ p, rainfall_body t = .ok p → t.isEmpty = false →
      update_rainfall_chart t = .chart p) := by
  intro t
  refine ⟨fun h => ⟨?_, ?_, ?_, ?_⟩, ?_, ?_, fun e he hne => ?_, fun p hp hne => ?_⟩
  · simp [update_rainfall_chart, h]
  · simp [update_hourly_temperature, h]
  · simp [update_monthly_temperature, h]
  · simp [update_temperature_comparison, h]
  · by_cases h : t.isEmpty = true
    · left
      simp [update_rainfall_chart, h]
    · rcases hb : rainfall_body t with e | p
      · right; left
        simp [update_rainfall_chart, h, hb]
      · right; right
        exact ⟨p, by simp [update_rainfall_chart, h, hb]⟩
  · by_cases h : t.isEmpty = true
    · left
      simp [update_hourly_temperature, h]
    · rcases hb : hourlyMeans t hourlyTempCols with e | w
      · right; left
        simp [update_hourly_temperature, h, hb]
      · right; right
        exact ⟨meltLong plotTypeLabels (renameSeries plotTypeLabels w),
          by simp [update_hourly_temperature, h, hb]⟩
  · simp [update_rainfall_chart, hne, he]
  · simp [update_rainfall_chart, hne, hp]

/-- Claim C9 witness: the theorem applied at the empty table and at a
concrete table whose timestamp column fails to parse inside the try body. -/
theorem c9_callbacks_total_witness :
    update_rainfall_chart emptyTable = .noData ∧
    update_rainfall_chart tBadTs = .errorData :=
  ⟨((c9_callbacks_total emptyTable).1 rfl).1,
   (c9_callbacks_total tBadTs).2.2.2.1 "to_datetime" rfl rfl⟩
